import Mathlib

/-!
Shallow embedding of `src/autotota.py`, a sequential pipeline that scrapes a
venue index, parses proceedings pages, resolves citation counts through a
metadata API, normalizes the counts per publication year, and writes a CSV
report.  Network effects are modelled by explicit environment functions
(attempt index / URL to response), `time.sleep` by an accumulated rational
sleep total, and the outbound request count by an explicit counter.  Python
floats are modelled by rationals; `math.log1p` is kept as an abstract
parameter `log1p : Int -> Rat` because its exact transcendental values are
irrelevant to every claim (only the structure of the median computation and
the subtraction matters).
-/

set_option autoImplicit false

/-- A JSON scalar value, the shape of fields such as `cited_by_count` in the
API responses.  Arrays and objects are not needed by any claim and a scalar
already exhibits every behaviour of the conversion `int(x or 0)`. -/
inductive JVal where
  | null : JVal
  | bool (b : Bool) : JVal
  | num (n : Int) : JVal
  | str (s : String) : JVal
deriving Repr, DecidableEq

/-- Decimal value of an all-digit character run (accumulator form, the usual
positional reading). -/
def digitsVal (acc : Nat) : List Char → Nat
  | [] => acc
  | c :: r => digitsVal (acc * 10 + (c.toNat - 48)) r

/-- Whether every character of the run is an ASCII digit and the run is
nonempty. -/
def allDigits1 : List Char → Bool
  | [] => false
  | [c] => c.isDigit
  | c :: r => c.isDigit && allDigits1 r

/-- Python `int(s)` on a string: an optional sign followed by a nonempty
digit run parses, anything else raises `ValueError` (`none` here).
Surrounding whitespace and underscore separators, which CPython also
accepts, never occur in the JSON counts of interest and are not modelled. -/
def pyStrToInt (s : String) : Option Int :=
  match s.data with
  | '-' :: rest => if allDigits1 rest then some (-(digitsVal 0 rest : Int)) else none
  | '+' :: rest => if allDigits1 rest then some (digitsVal 0 rest : Int) else none
  | l => if allDigits1 l then some (digitsVal 0 l : Int) else none

/-- Embedding of Python `int(j.get(field, 0) or 0)` applied to an optional
JSON field value (`none` = field absent).  Falsy values (absent, `null`,
`False`, `0`, `""`) give `0`; a numeric value converts; `True` gives `1`;
a nonempty numeric string parses; a truthy non-numeric string makes
`int(...)` raise `ValueError`, modelled as `Except.error`. -/
def pyIntOr0 : Option JVal → Except Unit Int
  | none => .ok 0
  | some .null => .ok 0
  | some (.bool b) => .ok (if b then 1 else 0)
  | some (.num n) => .ok n
  | some (.str s) =>
    if s = "" then .ok 0
    else
      match pyStrToInt s with
      | some n => .ok n
      | none => .error ()

/-- The response of the main works-lookup request (`requests.get(base + doi)`),
already JSON-decoded: HTTP status plus the two fields the code reads. -/
structure MainResp where
  status : Nat
  cited_by_count : Option JVal := none
  cited_by_api_url : Option String := none
deriving Repr, DecidableEq

/-- The response of a filtered cited-by count request: HTTP status plus
`meta.count` (`none` models a missing `meta` envelope or missing `count`,
both of which `j.get("meta", {}).get("count", 0)` turns into `0`). -/
structure SubResp where
  status : Nat
  count : Option JVal := none
deriving Repr, DecidableEq

/-- A Python exception class relevant to the resolver: `requests.RequestException`
(caught by the retry loop) versus `ValueError` from `int(...)` (uncaught). -/
inductive PErr where
  | req : PErr
  | val : PErr
deriving Repr, DecidableEq

/-- `MAX_RETRIES = 4` from the configuration block. -/
def MAX_RETRIES : Nat := 4

/-- `FIVE_YEAR_CUTOFF = CURRENT_YEAR - 5`. -/
def FIVE_YEAR_CUTOFF (currentYear : Int) : Int := currentYear - 5

/-- `CUTOFF_DATE = f"{FIVE_YEAR_CUTOFF+1}-01-01"`. -/
def CUTOFF_DATE (currentYear : Int) : String :=
  toString (FIVE_YEAR_CUTOFF currentYear + 1) ++ "-01-01"

/-- Whether `"filter="` occurs as a substring, the Python test
`"filter=" in cited_by_api`, expressed through `String.splitOn`. -/
def hasFilterParam (s : String) : Bool := (s.splitOn "filter=").length ≥ 2

/-- Builds the two candidate 5-year-filtered URLs (`url_5y_year`, `url_5y_date`)
exactly as lines 103-115 of the source do: when the URL already carries a
`filter=` parameter the extra filter is comma-joined into it via
`str.replace` (which, like Lean's `String.replace`, rewrites every
occurrence), otherwise a fresh query string is appended. -/
def build_5y_urls (cutY : Int) (cutD : String) (cited_by_api : String) :
    String × String :=
  if hasFilterParam cited_by_api then
    (cited_by_api.replace "filter="
        ("filter=publication_year:>" ++ toString cutY ++ ","),
     cited_by_api.replace "filter="
        ("filter=from_publication_date:" ++ cutD ++ ","))
  else
    (cited_by_api ++ "?filter=publication_year:>" ++ toString cutY,
     cited_by_api ++ "?filter=from_publication_date:" ++ cutD)

/-- The `for url_5y in (url_5y_year, url_5y_date)` loop: issue the requests in
order, take `meta.count` from the first HTTP 200 response, keep `0` when
none succeeds.  Returns the outcome together with the number of requests
issued; a network fault surfaces as `PErr.req` (caught by the outer retry
loop), a bad `int(...)` conversion as `PErr.val` (uncaught). -/
def fiveYearLoop (senv : String → Except Unit SubResp) :
    List String → Except PErr Int × Nat
  | [] => (.ok 0, 0)
  | u :: rest =>
    match senv u with
    | .error _ => (.error .req, 1)
    | .ok cr =>
      if cr.status = 200 then
        match pyIntOr0 cr.count with
        | .ok n => (.ok n, 1)
        | .error _ => (.error .val, 1)
      else
        let r := fiveYearLoop senv rest
        (r.1, r.2 + 1)

/-- Processing of an HTTP 200 works-lookup response (lines 96-130): read
`cited_by_count`, then, when a truthy `cited_by_api_url` is present, try the
two filtered count URLs and clamp the result to `total`.  Returns the
`(total, five_year)` pair (or the exception) and the number of secondary
requests issued. -/
def handle200 (senv : String → Except Unit SubResp) (cutY : Int) (cutD : String)
    (r : MainResp) : Except PErr (Int × Int) × Nat :=
  match pyIntOr0 r.cited_by_count with
  | .error _ => (.error .val, 0)
  | .ok total =>
    match r.cited_by_api_url with
    | none => (.ok (total, 0), 0)
    | some api =>
      if api = "" then (.ok (total, 0), 0)
      else
        let urls := build_5y_urls cutY cutD api
        let res := fiveYearLoop senv [urls.1, urls.2]
        match res.1 with
        | .error e => (.error e, res.2)
        | .ok fy => (.ok (total, if fy > total then total else fy), res.2)

/-- The retryable HTTP statuses of line 132. -/
def retryableStatus (s : Nat) : Bool :=
  s = 429 || s = 500 || s = 502 || s = 503 || s = 504

/-- The retry loop of `openalex_totals_and_5y` (lines 92-138).  `menv i` is
the outcome of the `i`-th main request (`Except.error` = network exception);
`fuel` counts the remaining loop iterations, `backoff` and `slept` the
current backoff and the accumulated sleep time, `calls` the requests issued
so far.  The overall `Except.error` result models an uncaught `ValueError`
escaping the function. -/
def openalex_loop (menv : Nat → Except Unit MainResp)
    (senv : String → Except Unit SubResp) (cutY : Int) (cutD : String) :
    Nat → Nat → ℚ → ℚ → Nat → Except Unit (Int × Int) × ℚ × Nat
  | 0, _, _, slept, calls => (.ok (0, 0), slept, calls)
  | fuel + 1, i, backoff, slept, calls =>
    match menv i with
    | .error _ =>
      openalex_loop menv senv cutY cutD fuel (i + 1) (backoff * 2)
        (slept + backoff) (calls + 1)
    | .ok r =>
      if r.status = 200 then
        match handle200 senv cutY cutD r with
        | (.ok res, c) => (.ok res, slept, calls + 1 + c)
        | (.error .req, c) =>
          openalex_loop menv senv cutY cutD fuel (i + 1) (backoff * 2)
            (slept + backoff) (calls + 1 + c)
        | (.error .val, c) => (.error (), slept, calls + 1 + c)
      else if retryableStatus r.status then
        openalex_loop menv senv cutY cutD fuel (i + 1) (backoff * 2)
          (slept + backoff) (calls + 1)
      else
        (.ok (0, 0), slept, calls + 1)

/-- `openalex_totals_and_5y(doi)` (lines 81-138): a falsy DOI (absent or the
empty string) returns `(0, 0)` at once; otherwise the retry loop runs with
`MAX_RETRIES` iterations, initial backoff `1.0`, no sleep yet and no request
issued yet.  The result carries the returned pair (or the escaped
exception), the total time slept and the number of requests issued. -/
def openalex_totals_and_5y (doi : Option String)
    (menv : Nat → Except Unit MainResp) (senv : String → Except Unit SubResp)
    (cutY : Int) (cutD : String) : Except Unit (Int × Int) × ℚ × Nat :=
  if doi = none ∨ doi = some "" then (.ok (0, 0), 0, 0)
  else openalex_loop menv senv cutY cutD MAX_RETRIES 0 1 0 0

example :
    openalex_totals_and_5y (some "10.1/x")
      (fun i => if i = 0 then .ok ⟨503, none, none⟩
                else .ok ⟨200, some (.num 7), none⟩)
      (fun _ => .error ()) 2020 "2021-01-01"
      = (.ok (7, 0), 1, 2) := by
  simp [openalex_totals_and_5y, openalex_loop, handle200, pyIntOr0, MAX_RETRIES,
    retryableStatus]

example :
    openalex_totals_and_5y none
      (fun _ => .error ()) (fun _ => .error ()) 2020 "2021-01-01"
      = (.ok (0, 0), 0, 0) := rfl

example :
    openalex_totals_and_5y (some "10.1/x")
      (fun _ => .ok ⟨200, some (.str "many"), none⟩)
      (fun _ => .error ()) 2020 "2021-01-01"
      = (.error (), 0, 1) := rfl

/-- The in-memory paper record built by the pipeline.  `title` is always a
string because records without a title are dropped by the proceedings
parser; the citation fields carry the defaults `0` until stage 2 fills
them, and the normalized fields and `url` are written by stage 3. -/
structure Paper where
  year : Option Int := none
  title : String := ""
  doi : Option String := none
  citations_total : Int := 0
  citations_5y : Int := 0
  normalized_total_citations : ℚ := 0
  normalized_5y_citations : ℚ := 0
  url : String := ""
deriving Repr, DecidableEq

/-- Python `statistics.median`: sort the data, take the middle element when
the length is odd, the mean of the two middle elements when it is even.
The empty case (on which `statistics.median` raises) is never reached by
the program because year groups are nonempty by construction. -/
def statistics_median (l : List ℚ) : ℚ :=
  let s := l.insertionSort (· ≤ ·)
  let n := s.length
  if n % 2 = 1 then s.getD (n / 2) 0
  else (s.getD (n / 2 - 1) 0 + s.getD (n / 2) 0) / 2

/-- The per-year value list built by `medians_for`: for each paper whose year
is known and equals `y`, in list order, the value `log1p` of the citation
field selected by `key` (`math.log1p(p.get(key, 0))`). -/
def yearVals (log1p : Int → ℚ) (key : Paper → Int) (papers : List Paper)
    (y : Int) : List ℚ :=
  papers.filterMap fun p =>
    match p.year with
    | some y2 => if y2 = y then some (log1p (key p)) else none
    | none => none

/-- `medians_for(key)` (lines 167-174) as a lookup: the dictionary holds an
entry for year `y` exactly when some paper carries that year, and the entry
is the statistical median of the year's log values. -/
def medians_for (log1p : Int → ℚ) (key : Paper → Int) (papers : List Paper)
    (y : Int) : Option ℚ :=
  let vals := yearVals log1p key papers y
  if vals.isEmpty then none else some (statistics_median vals)

/-- `med.get(y, 0.0)` with `y = p.get("year")`: the median dictionary never
holds a key for an unknown year, so an unknown year reads the default
`0.0`, as does a known year missing from the dictionary. -/
def medianLookup (log1p : Int → ℚ) (key : Paper → Int) (papers : List Paper) :
    Option Int → ℚ
  | none => 0
  | some y => (medians_for log1p key papers y).getD 0

/-- The mutation of one paper in the normalization loop (lines 179-183):
assign both normalized scores and the derived `url`. -/
def stampPaper (log1p : Int → ℚ) (papers : List Paper) (p : Paper) : Paper :=
  { p with
    normalized_total_citations :=
      log1p p.citations_total -
        medianLookup log1p (fun q => q.citations_total) papers p.year,
    normalized_5y_citations :=
      log1p p.citations_5y -
        medianLookup log1p (fun q => q.citations_5y) papers p.year,
    url := match p.doi with
      | some d => if d = "" then "" else "https://doi.org/" ++ d
      | none => "" }

/-- Stage 3 of `main` (lines 166-183): compute both median dictionaries from
the current paper list, then rewrite every paper's normalized fields and
`url` in place. -/
def normalize_papers (log1p : Int → ℚ) (papers : List Paper) : List Paper :=
  papers.map (stampPaper log1p papers)

example :
    medians_for (fun c => (c : ℚ)) (fun p => p.citations_total)
      [{ year := some 2022, citations_total := 3 },
       { year := some 2022, citations_total := 27 }] 2022 = some 15 := by
  simp [medians_for, yearVals, statistics_median, List.insertionSort,
    List.orderedInsert]
  norm_num

example :
    (normalize_papers (fun c => (c : ℚ))
      [{ year := some 2022, citations_total := 3 },
       { year := some 2022, citations_total := 27 }]).map
        (fun p => p.normalized_total_citations) = [-12, 12] := by
  simp [normalize_papers, stampPaper, medianLookup, medians_for, yearVals,
    statistics_median, List.insertionSort, List.orderedInsert]
  norm_num

/-- An anchor element of the index page, reduced to the two attributes the
code reads: the stripped visible text (`a.get_text(strip=True)`) and the
`href` attribute (`none` when the attribute is missing). -/
structure Anchor where
  text : String := ""
  href : Option String := none
deriving Repr, DecidableEq

/-- The leftmost run of four consecutive ASCII digits in a character list,
read as a number: the semantics of `re.search` with a four-digit pattern
followed by `int` on the matched group. -/
def findYearChars : List Char → Option Nat
  | [] => none
  | c1 :: rest =>
    match rest with
    | c2 :: c3 :: c4 :: _ =>
      if c1.isDigit && c2.isDigit && c3.isDigit && c4.isDigit then
        some ((((c1.toNat - 48) * 10 + (c2.toNat - 48)) * 10 +
          (c3.toNat - 48)) * 10 + (c4.toNat - 48))
      else findYearChars rest
    | _ => none

/-- Year extraction from a URL, lines 53-54. -/
def searchYear (s : String) : Option Int :=
  (findYearChars s.data).map (fun n => (n : Int))

/-- The inclusive year-range filter of lines 55-58.  The Python conditions
`YEAR_MIN and year and year < YEAR_MIN` skip an entry only when the bound
and the year are both truthy (a zero bound or a zero year is falsy) and the
comparison holds. -/
def yearFilteredOut (yearMin yearMax : Option Int) (year : Option Int) : Bool :=
  (match yearMin, year with
   | some m, some y => m ≠ 0 && y ≠ 0 && y < m
   | _, _ => false) ||
  (match yearMax, year with
   | some m, some y => m ≠ 0 && y ≠ 0 && y > m
   | _, _ => false)

/-- The sort key of line 60, `t[1] or 0`: an unknown year compares like `0`
(so does a literal year zero, which is falsy in Python). -/
def linkLE (t1 t2 : String × Option Int) : Prop := t1.2.getD 0 ≤ t2.2.getD 0

instance : DecidableRel linkLE := fun t1 t2 =>
  inferInstanceAs (Decidable (t1.2.getD 0 ≤ t2.2.getD 0))

instance : IsTotal (String × Option Int) linkLE :=
  ⟨fun t1 t2 => le_total (t1.2.getD 0) (t2.2.getD 0)⟩

instance : IsTrans (String × Option Int) linkLE :=
  ⟨fun _ _ _ h1 h2 => le_trans h1 h2⟩

/-- `extract_proceedings_links_and_years` (lines 45-61) with the index page
modelled by its anchor list: keep the anchors whose stripped text is
exactly the marker `[contents]` and whose `href` is truthy, pair each kept
`href` with its extracted year, drop the entries the configured year range
excludes, and sort by year ascending (stable, unknown year as `0`).  The
source configuration has both bounds set to `None`. -/
def extract_proceedings_links_and_years (yearMin yearMax : Option Int)
    (anchors : List Anchor) : List (String × Option Int) :=
  let links := anchors.filterMap fun a =>
    if a.text = "[contents]" then
      match a.href with
      | none => none
      | some href =>
        if href = "" then none
        else
          let year := searchYear href
          if yearFilteredOut yearMin yearMax year then none
          else some (href, year)
    else none
  links.insertionSort linkLE

example :
    extract_proceedings_links_and_years none none
      [{ text := "[contents]", href := some "conf/x/2021.html" },
       { text := "[contents]", href := some "conf/x/2020.html" },
       { text := "more", href := some "about.html" }]
      = [("conf/x/2020.html", some 2020), ("conf/x/2021.html", some 2021)] := by
  decide

/-- Round to the nearest integer with ties to even, the rounding CPython's
fixed-point float formatting applies to the scaled value.  The model works
on the exact rational; the binary-float representation error of the value
being formatted is below the precision any claim relies on (every claim
about the formatted output concerns only its shape). -/
def roundHalfEvenQ (x : ℚ) : Int :=
  let f := Int.floor x
  if x - f = 1 / 2 then (if f % 2 = 0 then f else f + 1) else Int.floor (x + 1 / 2)

/-- Python fixed-point formatting with six decimals, the f-string
`.6f` of lines 201-202: sign, integer part, a dot, then exactly six digit
characters of the rounded scaled magnitude. -/
def formatFixed6 (q : ℚ) : String :=
  let n : Int := roundHalfEvenQ (q * 1000000)
  let sign := if n < 0 then "-" else ""
  let m := n.natAbs
  let frac := m % 1000000
  sign ++ toString (m / 1000000) ++ "." ++
    String.mk [Nat.digitChar (frac / 100000 % 10), Nat.digitChar (frac / 10000 % 10),
      Nat.digitChar (frac / 1000 % 10), Nat.digitChar (frac / 100 % 10),
      Nat.digitChar (frac / 10 % 10), Nat.digitChar (frac % 10)]

/-- The six digit characters of `formatFixed6`, exposed for the shape
theorem. -/
def frac6 (q : ℚ) : String :=
  let frac := (roundHalfEvenQ (q * 1000000)).natAbs % 1000000
  String.mk [Nat.digitChar (frac / 100000 % 10), Nat.digitChar (frac / 10000 % 10),
    Nat.digitChar (frac / 1000 % 10), Nat.digitChar (frac / 100 % 10),
    Nat.digitChar (frac / 10 % 10), Nat.digitChar (frac % 10)]

/-- The fixed header row of lines 188-192. -/
def csv_header : List String :=
  ["year", "title", "doi", "url", "citations_total", "citations_5y",
   "normalized_total_citations", "normalized_5y_citations"]

/-- One CSV record (lines 194-203): year (empty when unknown), title, DOI
and URL with empty-string defaults, the two counts, and the two normalized
scores in fixed-point with six decimals. -/
def rowOf (p : Paper) : List String :=
  [(match p.year with | none => "" | some y => toString y),
   p.title,
   p.doi.getD "",
   p.url,
   toString p.citations_total,
   toString p.citations_5y,
   formatFixed6 p.normalized_total_citations,
   formatFixed6 p.normalized_5y_citations]

/-- The sort order of line 193, `key=lambda x: (x["year"] or 0, x["title"] or "")`:
lexicographic on the pair of the year (unknown, like the falsy year zero,
counts as `0`) and the title. -/
def rowLE (p q : Paper) : Prop :=
  p.year.getD 0 < q.year.getD 0 ∨
    (p.year.getD 0 = q.year.getD 0 ∧ p.title ≤ q.title)

instance : DecidableRel rowLE := fun p q =>
  inferInstanceAs (Decidable (p.year.getD 0 < q.year.getD 0 ∨
    (p.year.getD 0 = q.year.getD 0 ∧ p.title ≤ q.title)))

instance : IsTotal Paper rowLE := by
  constructor
  intro p q
  rcases lt_trichotomy (p.year.getD 0) (q.year.getD 0) with h | h | h
  · exact Or.inl (Or.inl h)
  · rcases le_total p.title q.title with ht | ht
    · exact Or.inl (Or.inr ⟨h, ht⟩)
    · exact Or.inr (Or.inr ⟨h.symm, ht⟩)
  · exact Or.inr (Or.inl h)

instance : IsTrans Paper rowLE := by
  constructor
  intro p q r h1 h2
  rcases h1 with h1 | ⟨e1, t1⟩
  · rcases h2 with h2 | ⟨e2, t2⟩
    · exact Or.inl (h1.trans h2)
    · exact Or.inl (e2 ▸ h1)
  · rcases h2 with h2 | ⟨e2, t2⟩
    · exact Or.inl (e1 ▸ h2)
    · exact Or.inr ⟨e1.trans e2, t1.trans t2⟩

/-- Stage 4 of `main` (lines 186-203), with the CSV file modelled as the
sequence of records handed to `csv.writer` row by row (the `csv` module's
quoting serializes and re-parses each record losslessly, so reading the
file back yields exactly this sequence): the fixed header, then one record
per paper in `(year, title)` order. -/
def write_csv (papers : List Paper) : List (List String) :=
  csv_header :: (papers.insertionSort rowLE).map rowOf

/-- A character of the DOI-suffix character class `[-._;()/:A-Z0-9]` under
the case-insensitive flag. -/
def doiTokenChar (c : Char) : Bool :=
  c.isDigit || ('A' ≤ c && c ≤ 'Z') || ('a' ≤ c && c ≤ 'z') ||
    c = '-' || c = '.' || c = '_' || c = ';' || c = '(' || c = ')' ||
    c = '/' || c = ':'

/-- The backtracking step of the counted repetition in the DOI pattern
(four to nine digits, greedy, followed by a slash and a nonempty greedy
token): try the digit count `d`, fall back to `d - 1` on failure. -/
def tryDoiDigits (rest : List Char) : Nat → Option (List Char)
  | 0 => none
  | d + 1 =>
    if d + 1 < 4 then none
    else
      let digs := rest.take (d + 1)
      if digs.length = d + 1 && digs.all Char.isDigit then
        match rest.drop (d + 1) with
        | '/' :: tok =>
          let sp := tok.span doiTokenChar
          if sp.1.isEmpty then tryDoiDigits rest d
          else some (digs ++ '/' :: sp.1)
        | _ => tryDoiDigits rest d
      else tryDoiDigits rest d

/-- Matching the DOI pattern anchored at the current position: the literal
prefix of a registrant DOI, then the counted digit repetition starting at
its greedy maximum of nine. -/
def doiMatchAt : List Char → Option (List Char)
  | '1' :: '0' :: '.' :: rest =>
    (tryDoiDigits rest 9).map (fun m => '1' :: '0' :: '.' :: m)
  | _ => none

/-- Leftmost-match scan of `re.search`: try each start position from the
left, return the first match. -/
def doiSearchChars : List Char → Option (List Char)
  | [] => none
  | c :: rest =>
    match doiMatchAt (c :: rest) with
    | some m => some m
    | none => doiSearchChars rest

/-- `doi_rx.search(raw)` of lines 66 and 75: the first DOI-shaped substring
of the serialized entry markup, if any. -/
def doi_rx_search (s : String) : Option String :=
  (doiSearchChars s.data).map (fun l => String.mk l)

example : doi_rx_search "<li>see https://doi.org/10.1145/1234567.1234568 x</li>"
    = some "10.1145/1234567.1234568" := by decide

example : doi_rx_search "<li>no identifier here</li>" = none := by decide

/-- One selected list entry of a proceedings page, reduced to what the code
reads: the text of its nested title element (`none` when the element is
missing) and the serialized raw markup `entry.decode()`. -/
structure PEntry where
  title : Option String := none
  raw : String := ""
deriving Repr, DecidableEq

/-- Line 77, `year = year_hint or (...)`: a truthy hint wins; a falsy hint
(absent, or the falsy year zero) falls back to the first four-digit run of
the proceedings URL. -/
def yearFromHintOrUrl (yearHint : Option Int) (url : String) : Option Int :=
  match yearHint with
  | some y => if y = 0 then searchYear url else some y
  | none => searchYear url

/-- `extract_papers_from_proceedings` (lines 63-79) with the page modelled
by its selected entry list (the primary/fallback selector choice only
determines which entries arrive here): entries without a truthy title are
silently dropped; each kept entry yields a record with the hint-or-URL
year and the first DOI-shaped substring of its raw markup. -/
def extract_papers_from_proceedings (url : String) (yearHint : Option Int)
    (entries : List PEntry) : List Paper :=
  entries.filterMap fun e =>
    match e.title with
    | none => none
    | some t =>
      if t = "" then none
      else some { year := yearFromHintOrUrl yearHint url, title := t,
                  doi := doi_rx_search e.raw }

/-- The external world of one run: the anchors of the index page, the
selected entries of each proceedings page, and the metadata API responses
(keyed by the DOI being resolved, then by attempt index resp. request
URL). -/
structure WebEnv where
  anchors : List Anchor
  entriesAt : String → List PEntry
  mainRespAt : Option String → Nat → Except Unit MainResp
  subRespAt : Option String → String → Except Unit SubResp

/-- Stage 2 of `main` (lines 158-164): resolve each paper's counts in list
order, writing them into the record; an uncaught exception escaping the
resolver aborts the run at that paper. -/
def resolveStage (env : WebEnv) (cutY : Int) (cutD : String)
    (papers : List Paper) : Except Unit (List Paper) :=
  papers.mapM fun p =>
    match (openalex_totals_and_5y p.doi (env.mainRespAt p.doi)
        (env.subRespAt p.doi) cutY cutD).1 with
    | .error e => .error e
    | .ok tf => .ok { p with citations_total := tf.1, citations_5y := tf.2 }

/-- `main` (lines 142-205): collect the proceedings links; when none are
found, print and return without touching the output file (`Option.none`
models the absent file); otherwise parse every proceedings page in link
order, resolve the citation counts, normalize, and write the CSV.  The
outer `Except.error` models a run aborted by an uncaught exception. -/
def main_run (log1p : Int → ℚ) (env : WebEnv) (currentYear : Int) :
    Except Unit (Option (List (List String))) :=
  let proc_links := extract_proceedings_links_and_years none none env.anchors
  if proc_links.isEmpty then .ok none
  else
    let papers := proc_links.flatMap fun t =>
      extract_papers_from_proceedings t.1 t.2 (env.entriesAt t.1)
    match resolveStage env (FIVE_YEAR_CUTOFF currentYear)
        (CUTOFF_DATE currentYear) papers with
    | .error e => .error e
    | .ok papers2 => .ok (some (write_csv (normalize_papers log1p papers2)))

/-! ### Supporting lemmas about the normalizer -/

lemma yearVals_eq_filter_map (log1p : Int → ℚ) (key : Paper → Int)
    (papers : List Paper) (y : Int) :
    yearVals log1p key papers y =
      (papers.filter (fun p => decide (p.year = some y))).map
        (fun p => log1p (key p)) := by
  induction papers with
  | nil => rfl
  | cons p l ih =>
    cases hy : p.year with
    | none => simpa [yearVals, List.filterMap_cons, List.filter_cons, hy]
        using ih
    | some y2 =>
      by_cases h : y2 = y
      · subst h
        simpa [yearVals, List.filterMap_cons, List.filter_cons, hy] using ih
      · simpa [yearVals, List.filterMap_cons, List.filter_cons, hy, h] using ih

lemma mem_yearVals_of_mem (log1p : Int → ℚ) (key : Paper → Int)
    {papers : List Paper} {p : Paper} {y : Int} (hp : p ∈ papers)
    (hy : p.year = some y) :
    log1p (key p) ∈ yearVals log1p key papers y := by
  refine List.mem_filterMap.mpr ⟨p, hp, ?_⟩
  simp [hy]

lemma medians_for_of_mem (log1p : Int → ℚ) (key : Paper → Int)
    {papers : List Paper} {p : Paper} {y : Int} (hp : p ∈ papers)
    (hy : p.year = some y) :
    medians_for log1p key papers y =
      some (statistics_median (yearVals log1p key papers y)) := by
  have hmem := mem_yearVals_of_mem log1p key hp hy
  have hne : yearVals log1p key papers y ≠ [] := List.ne_nil_of_mem hmem
  simp [medians_for, List.isEmpty_iff, hne]

/-! ### Claim theorems: normalizer -/

/-- C10: for every paper whose year is known, the median lookup during
normalization succeeds: the paper's own log-count belongs to its year
group, so the group is nonempty, the dictionary holds an entry for that
year, and the lookup returns that entry rather than the `0.0` default
(which is therefore applied only to papers with unknown year). -/
theorem claim_C10 (log1p : Int → ℚ) (key : Paper → Int) (papers : List Paper)
    (p : Paper) (y : Int) (hp : p ∈ papers) (hy : p.year = some y) :
    log1p (key p) ∈ yearVals log1p key papers y ∧
      medians_for log1p key papers y =
        some (statistics_median (yearVals log1p key papers y)) ∧
      medianLookup log1p key papers (some y) =
        statistics_median (yearVals log1p key papers y) := by
  refine ⟨mem_yearVals_of_mem log1p key hp hy,
    medians_for_of_mem log1p key hp hy, ?_⟩
  simp [medianLookup, medians_for_of_mem log1p key hp hy]

/-- A concrete stand-in for `math.log1p` used by the closed witnesses.  Like
the real `log1p` it maps `0` to `0` and is monotone; its exact values are
irrelevant to every structural property being witnessed. -/
def log1p0 (c : Int) : ℚ := c

/-- Closed instance of C10 on a one-paper list. -/
theorem claim_C10_witness :
    let p : Paper := { year := some 2022, citations_total := 3 }
    log1p0 (p.citations_total) ∈
        yearVals log1p0 (fun q => q.citations_total) [p] 2022 ∧
      medians_for log1p0 (fun q => q.citations_total) [p] 2022 =
        some (statistics_median
          (yearVals log1p0 (fun q => q.citations_total) [p] 2022)) ∧
      medianLookup log1p0 (fun q => q.citations_total) [p] (some 2022) =
        statistics_median
          (yearVals log1p0 (fun q => q.citations_total) [p] 2022) :=
  claim_C10 log1p0 (fun q => q.citations_total) _ _ 2022 (by simp) rfl

/-- C4: a paper without a DOI gets `(0, 0)` from the resolver at once, with
zero sleep and zero outbound requests, whatever the network would have
answered; and the normalizer handles such a paper like any other, so with
zero counts its record appears in the normalized list with both scores
equal to `0 - medianForYear(year)` (using that `log1p 0 = 0`). -/
theorem claim_C4 (log1p : Int → ℚ) (hlog : log1p 0 = 0)
    (menv : Nat → Except Unit MainResp) (senv : String → Except Unit SubResp)
    (cutY : Int) (cutD : String) (papers : List Paper) (p : Paper)
    (hp : p ∈ papers) (hdoi : p.doi = none)
    (ht : p.citations_total = 0) (h5 : p.citations_5y = 0) :
    openalex_totals_and_5y p.doi menv senv cutY cutD = (.ok (0, 0), 0, 0) ∧
      stampPaper log1p papers p ∈ normalize_papers log1p papers ∧
      (stampPaper log1p papers p).normalized_total_citations =
        0 - medianLookup log1p (fun q => q.citations_total) papers p.year ∧
      (stampPaper log1p papers p).normalized_5y_citations =
        0 - medianLookup log1p (fun q => q.citations_5y) papers p.year := by
  refine ⟨by simp [openalex_totals_and_5y, hdoi], ?_, ?_, ?_⟩
  · exact List.mem_map_of_mem _ hp
  · simp [stampPaper, ht, hlog]
  · simp [stampPaper, h5, hlog]

/-- Closed instance of C4: a DOI-less paper in a two-paper list. -/
theorem claim_C4_witness :
    let p : Paper := { year := some 2022, title := "a" }
    let q : Paper := { year := some 2022, title := "b", citations_total := 27 }
    openalex_totals_and_5y p.doi (fun _ => .error ()) (fun _ => .error ())
        2020 "2021-01-01" = (.ok (0, 0), 0, 0) ∧
      stampPaper log1p0 [p, q] p ∈ normalize_papers log1p0 [p, q] ∧
      (stampPaper log1p0 [p, q] p).normalized_total_citations =
        0 - medianLookup log1p0 (fun r => r.citations_total) [p, q] p.year ∧
      (stampPaper log1p0 [p, q] p).normalized_5y_citations =
        0 - medianLookup log1p0 (fun r => r.citations_5y) [p, q] p.year :=
  claim_C4 log1p0 rfl _ _ 2020 "2021-01-01" _ _ (by simp) rfl rfl rfl

lemma yearVals_map_stamp (log1p : Int → ℚ) (key : Paper → Int)
    (papers0 papers : List Paper) (y : Int)
    (hkey : ∀ q, key (stampPaper log1p papers0 q) = key q) :
    yearVals log1p key (papers.map (stampPaper log1p papers0)) y =
      yearVals log1p key papers y := by
  simp only [yearVals, List.filterMap_map]
  congr 1
  funext q
  simp only [Function.comp_apply]
  rw [hkey q, show (stampPaper log1p papers0 q).year = q.year from rfl]

lemma medianLookup_map_stamp (log1p : Int → ℚ) (key : Paper → Int)
    (papers0 papers : List Paper) (oy : Option Int)
    (hkey : ∀ q, key (stampPaper log1p papers0 q) = key q) :
    medianLookup log1p key (papers.map (stampPaper log1p papers0)) oy =
      medianLookup log1p key papers oy := by
  cases oy with
  | none => rfl
  | some y =>
    simp [medianLookup, medians_for,
      yearVals_map_stamp log1p key papers0 papers y hkey]

/-- C9: normalization is idempotent.  A second application recomputes the
year medians from the unchanged citation counts, so every record receives
the same normalized scores (and `url`) again. -/
theorem claim_C9 (log1p : Int → ℚ) (papers : List Paper) :
    normalize_papers log1p (normalize_papers log1p papers) =
      normalize_papers log1p papers := by
  unfold normalize_papers
  rw [List.map_map]
  apply List.map_congr_left
  intro p _hp
  show stampPaper log1p (papers.map (stampPaper log1p papers))
      (stampPaper log1p papers p) = stampPaper log1p papers p
  simp only [stampPaper]
  rw [medianLookup_map_stamp log1p (fun q => q.citations_total) papers papers
      p.year (fun q => rfl),
    medianLookup_map_stamp log1p (fun q => q.citations_5y) papers papers
      p.year (fun q => rfl)]

/-- C1: the year-median normalization is what the spec says it is.  For any
citation field `key` (the code uses it with the total and the 5-year
counts separately): the value group of year `y` consists of the log values
of exactly the papers with that year; every year with at least one paper
has a median entry equal to the statistical median of its group; the
normalizer maps each paper to a record whose normalized score is its log
count minus the year median, with the median term `0` for an unknown
year; and a paper whose log count equals its year median gets score `0`. -/
theorem claim_C1 (log1p : Int → ℚ) (papers : List Paper) :
    (∀ (key : Paper → Int) (y : Int),
      yearVals log1p key papers y =
        (papers.filter (fun p => decide (p.year = some y))).map
          (fun p => log1p (key p))) ∧
    (∀ (key : Paper → Int) (y : Int), (∃ p ∈ papers, p.year = some y) →
      medians_for log1p key papers y =
        some (statistics_median (yearVals log1p key papers y))) ∧
    normalize_papers log1p papers = papers.map (stampPaper log1p papers) ∧
    (∀ p ∈ papers,
      (stampPaper log1p papers p).normalized_total_citations =
        log1p p.citations_total -
          medianLookup log1p (fun q => q.citations_total) papers p.year ∧
      (stampPaper log1p papers p).normalized_5y_citations =
        log1p p.citations_5y -
          medianLookup log1p (fun q => q.citations_5y) papers p.year) ∧
    (∀ key : Paper → Int, medianLookup log1p key papers none = 0) ∧
    (∀ p ∈ papers, ∀ y : Int, p.year = some y →
      log1p p.citations_total =
        statistics_median
          (yearVals log1p (fun q => q.citations_total) papers y) →
      (stampPaper log1p papers p).normalized_total_citations = 0) ∧
    (∀ p ∈ papers, ∀ y : Int, p.year = some y →
      log1p p.citations_5y =
        statistics_median (yearVals log1p (fun q => q.citations_5y) papers y) →
      (stampPaper log1p papers p).normalized_5y_citations = 0) := by
  refine ⟨fun key y => yearVals_eq_filter_map log1p key papers y,
    fun key y h => ?_, rfl, fun p _ => ⟨rfl, rfl⟩, fun key => rfl,
    fun p hp y hy hmed => ?_, fun p hp y hy hmed => ?_⟩
  · obtain ⟨p, hp, hy⟩ := h
    exact medians_for_of_mem log1p key hp hy
  · have hl := medians_for_of_mem log1p (fun q => q.citations_total) hp hy
    simp [stampPaper, medianLookup, hy, hl, ← hmed]
  · have hl := medians_for_of_mem log1p (fun q => q.citations_5y) hp hy
    simp [stampPaper, medianLookup, hy, hl, ← hmed]

/-- Closed instance of C1 on a one-paper list: the group is the paper's own
log value, the median entry exists, and the paper (being exactly at its
year median) gets normalized score `0`. -/
theorem claim_C1_witness :
    let p : Paper := { year := some 2022, citations_total := 3 }
    yearVals log1p0 (fun q => q.citations_total) [p] 2022 =
        ([p].filter (fun q => decide (q.year = some 2022))).map
          (fun q => log1p0 q.citations_total) ∧
      medians_for log1p0 (fun q => q.citations_total) [p] 2022 =
        some (statistics_median
          (yearVals log1p0 (fun q => q.citations_total) [p] 2022)) ∧
      (stampPaper log1p0 [p] p).normalized_total_citations = 0 := by
  refine ⟨(claim_C1 log1p0 _).1 _ 2022,
    (claim_C1 log1p0 _).2.1 _ 2022
      ⟨{ year := some 2022, citations_total := 3 }, by simp, rfl⟩,
    (claim_C1 log1p0 _).2.2.2.2.2.1 _ (by simp) 2022 rfl ?_⟩
  simp [yearVals, statistics_median, List.insertionSort, List.orderedInsert,
    log1p0]

/-! ### Supporting lemmas about the resolver -/

lemma handle200_clamp (senv : String → Except Unit SubResp) (cutY : Int)
    (cutD : String) (r : MainResp) (t f : Int) (c : Nat)
    (h : handle200 senv cutY cutD r = (.ok (t, f), c))
    (hn : ∀ n, pyIntOr0 r.cited_by_count = .ok n → 0 ≤ n) : f ≤ t := by
  unfold handle200 at h
  cases hc : pyIntOr0 r.cited_by_count with
  | error e => rw [hc] at h; simp at h
  | ok total =>
    rw [hc] at h
    have htot : 0 ≤ total := hn total hc
    cases hapi : r.cited_by_api_url with
    | none =>
      rw [hapi] at h
      simp only [Prod.mk.injEq, Except.ok.injEq] at h
      obtain ⟨⟨ht, hf⟩, -⟩ := h
      omega
    | some api =>
      rw [hapi] at h
      by_cases he : api = ""
      · simp only [he, if_pos rfl, Prod.mk.injEq, Except.ok.injEq] at h
        obtain ⟨⟨ht, hf⟩, -⟩ := h
        omega
      · simp only [he, if_neg, ite_false] at h
        cases hfy : (fiveYearLoop senv [(build_5y_urls cutY cutD api).1,
            (build_5y_urls cutY cutD api).2]).1 with
        | error e => rw [hfy] at h; simp at h
        | ok fy =>
          rw [hfy] at h
          simp only [Prod.mk.injEq, Except.ok.injEq] at h
          obtain ⟨⟨ht, hf⟩, -⟩ := h
          by_cases hgt : fy > total
          · rw [if_pos hgt] at hf; omega
          · rw [if_neg hgt] at hf; omega

lemma openalex_loop_clamp (menv : Nat → Except Unit MainResp)
    (senv : String → Except Unit SubResp) (cutY : Int) (cutD : String)
    (H : ∀ i r, menv i = .ok r → ∀ n, pyIntOr0 r.cited_by_count = .ok n → 0 ≤ n) :
    ∀ (fuel i : Nat) (backoff slept : ℚ) (calls : Nat) (t f : Int),
    (openalex_loop menv senv cutY cutD fuel i backoff slept calls).1 =
      .ok (t, f) → f ≤ t := by
  intro fuel
  induction fuel with
  | zero =>
    intro i backoff slept calls t f h
    simp only [openalex_loop, Except.ok.injEq, Prod.mk.injEq] at h
    omega
  | succ fuel ih =>
    intro i backoff slept calls t f h
    rw [openalex_loop] at h
    cases hm : menv i with
    | error e =>
      rw [hm] at h
      dsimp only at h
      exact ih _ _ _ _ _ _ h
    | ok r =>
      rw [hm] at h
      dsimp only at h
      by_cases h200 : r.status = 200
      · rw [if_pos h200] at h
        rcases hh : handle200 senv cutY cutD r with ⟨res, c⟩
        rw [hh] at h
        cases res with
        | ok tf =>
          dsimp only at h
          simp only [Except.ok.injEq] at h
          obtain ⟨t', f'⟩ := tf
          cases h
          exact handle200_clamp senv cutY cutD r t f c hh (H i r hm)
        | error e =>
          cases e with
          | req => exact ih _ _ _ _ _ _ h
          | val => simp at h
      · rw [if_neg h200] at h
        by_cases hr : retryableStatus r.status = true
        · rw [if_pos hr] at h
          exact ih _ _ _ _ _ _ h
        · rw [if_neg hr] at h
          simp only [Except.ok.injEq, Prod.mk.injEq] at h
          omega

/-- C3: every `(total, recent)` pair the resolver returns satisfies
`recent <= total` (whenever a filtered 5-year count would exceed the total
it is clamped down to it), provided the metadata responses carry
non-negative total counts, which is what the data model guarantees for
citation counts. -/
theorem claim_C3 (doi : Option String) (menv : Nat → Except Unit MainResp)
    (senv : String → Except Unit SubResp) (cutY : Int) (cutD : String)
    (t f : Int)
    (H : ∀ i r, menv i = .ok r → ∀ n, pyIntOr0 r.cited_by_count = .ok n → 0 ≤ n)
    (h : (openalex_totals_and_5y doi menv senv cutY cutD).1 = .ok (t, f)) :
    f ≤ t := by
  unfold openalex_totals_and_5y at h
  by_cases hd : doi = none ∨ doi = some ""
  · rw [if_pos hd] at h
    simp only [Except.ok.injEq, Prod.mk.injEq] at h
    omega
  · rw [if_neg hd] at h
    exact openalex_loop_clamp menv senv cutY cutD H _ _ _ _ _ _ _ h

/-- Closed instance of C3: a response with total 10 whose filtered 5-year
count comes back as 99 is clamped to `(10, 10)`, and `10 <= 10`. -/
theorem claim_C3_witness :
    (openalex_totals_and_5y (some "10.1/x")
        (fun _ => .ok ⟨200, some (.num 10), some "u"⟩)
        (fun _ => .ok ⟨200, some (.num 99)⟩) 2020 "2021-01-01").1 =
      .ok (10, 10) ∧ (10 : Int) ≤ 10 := by
  have hres : (openalex_totals_and_5y (some "10.1/x")
      (fun _ => .ok ⟨200, some (.num 10), some "u"⟩)
      (fun _ => .ok ⟨200, some (.num 99)⟩) 2020 "2021-01-01").1 =
      .ok (10, 10) := rfl
  refine ⟨hres, claim_C3 (some "10.1/x") _ _ 2020 "2021-01-01" 10 10 ?_ hres⟩
  intro i r hr n hn
  cases hr
  cases hn
  decide

/-- C5 counterexample: on an HTTP 200 response whose `cited_by_count` is the
truthy non-numeric string `"many"`, the resolver does not return a pair
with total defaulted to `0` — the `int(...)` conversion raises an uncaught
`ValueError` that escapes the resolver, contradicting the claim that a
non-numeric field defaults to `0` without raising. -/
theorem claim_C5_counterexample :
    (openalex_totals_and_5y (some "10.1/x")
        (fun _ => .ok { status := 200, cited_by_count := some (.str "many") })
        (fun _ => .error ()) 2020 "2021-01-01").1 = .error () ∧
      ∀ p : Int × Int,
        (openalex_totals_and_5y (some "10.1/x")
          (fun _ => .ok { status := 200, cited_by_count := some (.str "many") })
          (fun _ => .error ()) 2020 "2021-01-01").1 ≠ .ok p := by
  refine ⟨rfl, fun p h => ?_⟩
  rw [show (openalex_totals_and_5y (some "10.1/x")
      (fun _ => .ok { status := 200, cited_by_count := some (.str "many") })
      (fun _ => .error ()) 2020 "2021-01-01").1 = .error () from rfl] at h
  exact Except.noConfusion h

/-- C5 (amended): on a first-attempt HTTP 200 response without a
`cited_by_api_url`, the resolver returns `(t, 0)` with no sleeping and one
request whenever `int(cited_by_count or 0)` evaluates to `t` — which it
does, with `t = 0`, for an absent field and for every falsy value (`null`,
`False`, `0`, `""`), and with `t = n` for a numeric value `n`; when the
field holds a truthy non-numeric string, the conversion raises and the
exception escapes the resolver.  In particular a response with count `10`
and no `cited_by_api_url` yields `(10, 0)`. -/
theorem claim_C5 (menv : Nat → Except Unit MainResp)
    (senv : String → Except Unit SubResp) (cutY : Int) (cutD : String)
    (doi : Option String) (r : MainResp) (hd1 : doi ≠ none) (hd2 : doi ≠ some "")
    (hm : menv 0 = .ok r) (hs : r.status = 200)
    (hapi : r.cited_by_api_url = none) :
    (∀ t : Int, pyIntOr0 r.cited_by_count = .ok t →
      openalex_totals_and_5y doi menv senv cutY cutD = (.ok (t, 0), 0, 1)) ∧
    (pyIntOr0 r.cited_by_count = .error () →
      openalex_totals_and_5y doi menv senv cutY cutD = (.error (), 0, 1)) ∧
    pyIntOr0 none = .ok 0 ∧ pyIntOr0 (some .null) = .ok 0 ∧
    pyIntOr0 (some (.bool false)) = .ok 0 ∧ pyIntOr0 (some (.num 0)) = .ok 0 ∧
    pyIntOr0 (some (.str "")) = .ok 0 ∧
    (∀ n : Int, pyIntOr0 (some (.num n)) = .ok n) := by
  have hnd : ¬(doi = none ∨ doi = some "") := by
    rintro (h | h)
    · exact hd1 h
    · exact hd2 h
  refine ⟨fun t ht => ?_, fun ht => ?_, rfl, rfl, rfl, rfl, rfl, fun n => rfl⟩
  · rw [openalex_totals_and_5y, if_neg hnd]
    rw [show MAX_RETRIES = 3 + 1 from rfl, openalex_loop, hm]
    dsimp only
    rw [if_pos hs]
    rw [show handle200 senv cutY cutD r = (.ok (t, 0), 0) from by
      rw [handle200, ht, hapi]]
  · rw [openalex_totals_and_5y, if_neg hnd]
    rw [show MAX_RETRIES = 3 + 1 from rfl, openalex_loop, hm]
    dsimp only
    rw [if_pos hs]
    rw [show handle200 senv cutY cutD r = (.error .val, 0) from by
      rw [handle200, ht]]

/-- Closed instance of C5 (amended): the scenario response with count 10 and
no cited-by URL yields `(10, 0)` after zero sleep and one request. -/
theorem claim_C5_witness :
    openalex_totals_and_5y (some "10.1/x")
        (fun _ => .ok { status := 200, cited_by_count := some (.num 10) })
        (fun _ => .error ()) 2020 "2021-01-01"
      = (.ok (10, 0), 0, 1) :=
  (claim_C5 (fun _ => .ok { status := 200, cited_by_count := some (.num 10) })
    (fun _ => .error ()) 2020 "2021-01-01" (some "10.1/x") _
    (by simp) (by simp) rfl rfl rfl).1 10 rfl

/-- The causes that make iteration `i` of the retry loop sleep and retry:
a network-level exception on the main request, a retryable HTTP status
(429/500/502/503/504), or an HTTP 200 whose secondary 5-year request
raises a network-level exception (also caught by the same handler). -/
def retryCause (menv : Nat → Except Unit MainResp)
    (senv : String → Except Unit SubResp) (cutY : Int) (cutD : String)
    (i : Nat) : Prop :=
  menv i = .error () ∨
  (∃ r, menv i = .ok r ∧ r.status ≠ 200 ∧ retryableStatus r.status = true) ∨
  (∃ r, menv i = .ok r ∧ r.status = 200 ∧
    (handle200 senv cutY cutD r).1 = .error .req)

lemma openalex_loop_retries (menv : Nat → Except Unit MainResp)
    (senv : String → Except Unit SubResp) (cutY : Int) (cutD : String) :
    ∀ (k fuel i : Nat) (backoff slept : ℚ) (calls : Nat),
    (∀ j, j < k → retryCause menv senv cutY cutD (i + j)) → k ≤ fuel →
    ∃ calls2, openalex_loop menv senv cutY cutD fuel i backoff slept calls =
      openalex_loop menv senv cutY cutD (fuel - k) (i + k) (backoff * 2 ^ k)
        (slept + backoff * (2 ^ k - 1)) calls2 := by
  intro k
  induction k with
  | zero =>
    intro fuel i backoff slept calls _ _
    exact ⟨calls, by norm_num⟩
  | succ k ih =>
    intro fuel i backoff slept calls hre hk
    obtain ⟨f, rfl⟩ : ∃ f, fuel = f + 1 := ⟨fuel - 1, by omega⟩
    have h0 := hre 0 (Nat.succ_pos k)
    rw [Nat.add_zero] at h0
    have hshift : ∀ j, j < k → retryCause menv senv cutY cutD (i + 1 + j) := by
      intro j hj
      have := hre (j + 1) (by omega)
      rwa [show i + (j + 1) = i + 1 + j by omega] at this
    have hkf : k ≤ f := by omega
    have e1 : f + 1 - (k + 1) = f - k := by omega
    have e2 : i + (k + 1) = i + 1 + k := by omega
    have e3 : backoff * 2 ^ (k + 1) = backoff * 2 * 2 ^ k := by ring
    have e4 : slept + backoff * (2 ^ (k + 1) - 1) =
        slept + backoff + backoff * 2 * (2 ^ k - 1) := by ring
    rw [e1, e2, e3, e4]
    rcases h0 with h0 | ⟨r, hr, hs, hret⟩ | ⟨r, hr, hs, hh⟩
    · obtain ⟨c2, heq⟩ := ih f (i + 1) (backoff * 2) (slept + backoff)
        (calls + 1) hshift hkf
      refine ⟨c2, ?_⟩
      rw [openalex_loop, h0]
      exact heq
    · obtain ⟨c2, heq⟩ := ih f (i + 1) (backoff * 2) (slept + backoff)
        (calls + 1) hshift hkf
      refine ⟨c2, ?_⟩
      rw [openalex_loop, hr]
      dsimp only
      rw [if_neg hs, if_pos hret]
      exact heq
    · rcases hh2 : handle200 senv cutY cutD r with ⟨res, c⟩
      have hres : res = .error .req := by
        have := congrArg Prod.fst hh2
        rw [hh] at this
        exact this.symm
      subst hres
      obtain ⟨c2, heq⟩ := ih f (i + 1) (backoff * 2) (slept + backoff)
        (calls + 1 + c) hshift hkf
      refine ⟨c2, ?_⟩
      rw [openalex_loop, hr]
      dsimp only
      rw [if_pos hs, hh2]
      exact heq

/-- C2: the retry policy.  (1) If the first `k < MAX_RETRIES` attempts fail
for a retryable cause (HTTP 429/500/502/503/504 or a network-level
exception) and attempt `k` returns HTTP 200 processed to `res`, the
resolver returns `res` and sleeps exactly `2^k - 1` time units, which is
at least the geometric sum `1 + 2 + ... + 2^(k-1)` of the doubling backoff
that starts at one unit.  (2) If all `MAX_RETRIES` attempts fail for
retryable causes, the resolver returns `(0, 0)` without raising.  (3) A
non-2xx status outside the retryable set ends the loop at once with
`(0, 0)`. -/
theorem claim_C2 :
    (∀ (menv : Nat → Except Unit MainResp) (senv : String → Except Unit SubResp)
      (cutY : Int) (cutD : String) (doi : Option String) (k : Nat)
      (r : MainResp) (res : Int × Int) (c : Nat),
      doi ≠ none → doi ≠ some "" → k < MAX_RETRIES →
      (∀ j, j < k → retryCause menv senv cutY cutD j) →
      menv k = .ok r → r.status = 200 →
      handle200 senv cutY cutD r = (.ok res, c) →
      (openalex_totals_and_5y doi menv senv cutY cutD).1 = .ok res ∧
      (openalex_totals_and_5y doi menv senv cutY cutD).2.1 = 2 ^ k - 1 ∧
      (Finset.range k).sum (fun j => (2 : ℚ) ^ j) ≤
        (openalex_totals_and_5y doi menv senv cutY cutD).2.1) ∧
    (∀ (menv : Nat → Except Unit MainResp) (senv : String → Except Unit SubResp)
      (cutY : Int) (cutD : String) (doi : Option String),
      doi ≠ none → doi ≠ some "" →
      (∀ j, j < MAX_RETRIES → retryCause menv senv cutY cutD j) →
      (openalex_totals_and_5y doi menv senv cutY cutD).1 = .ok (0, 0)) ∧
    (∀ (menv : Nat → Except Unit MainResp) (senv : String → Except Unit SubResp)
      (cutY : Int) (cutD : String) (doi : Option String) (k : Nat)
      (r : MainResp),
      doi ≠ none → doi ≠ some "" → k < MAX_RETRIES →
      (∀ j, j < k → retryCause menv senv cutY cutD j) →
      menv k = .ok r → r.status ≠ 200 → retryableStatus r.status = false →
      (openalex_totals_and_5y doi menv senv cutY cutD).1 = .ok (0, 0)) := by
  have hgeom : ∀ k : Nat, (Finset.range k).sum (fun j => (2 : ℚ) ^ j) =
      2 ^ k - 1 := by
    intro k
    rw [geom_sum_eq (by norm_num : (2 : ℚ) ≠ 1)]
    norm_num
  refine ⟨?_, ?_, ?_⟩
  · intro menv senv cutY cutD doi k r res c hd1 hd2 hk hre hmk hs hh
    have hnd : ¬(doi = none ∨ doi = some "") := by
      rintro (h | h)
      · exact hd1 h
      · exact hd2 h
    obtain ⟨c2, heq⟩ := openalex_loop_retries menv senv cutY cutD k MAX_RETRIES
      0 1 0 0 (by intro j hj; rw [Nat.zero_add]; exact hre j hj) (le_of_lt hk)
    obtain ⟨m, hm4⟩ : ∃ m, MAX_RETRIES - k = m + 1 :=
      ⟨MAX_RETRIES - k - 1, by omega⟩
    have hmain : openalex_totals_and_5y doi menv senv cutY cutD =
        (.ok res, 0 + 1 * (2 ^ k - 1), c2 + 1 + c) := by
      rw [openalex_totals_and_5y, if_neg hnd, heq, hm4, openalex_loop,
        Nat.zero_add, hmk]
      dsimp only
      rw [if_pos hs, hh]
    rw [hmain, hgeom]
    norm_num
  · intro menv senv cutY cutD doi hd1 hd2 hre
    have hnd : ¬(doi = none ∨ doi = some "") := by
      rintro (h | h)
      · exact hd1 h
      · exact hd2 h
    obtain ⟨c2, heq⟩ := openalex_loop_retries menv senv cutY cutD MAX_RETRIES
      MAX_RETRIES 0 1 0 0
      (by intro j hj; rw [Nat.zero_add]; exact hre j hj) (le_refl _)
    rw [openalex_totals_and_5y, if_neg hnd, heq, Nat.sub_self, openalex_loop]
  · intro menv senv cutY cutD doi k r hd1 hd2 hk hre hmk hs hret
    have hnd : ¬(doi = none ∨ doi = some "") := by
      rintro (h | h)
      · exact hd1 h
      · exact hd2 h
    obtain ⟨c2, heq⟩ := openalex_loop_retries menv senv cutY cutD k MAX_RETRIES
      0 1 0 0 (by intro j hj; rw [Nat.zero_add]; exact hre j hj) (le_of_lt hk)
    obtain ⟨m, hm4⟩ : ∃ m, MAX_RETRIES - k = m + 1 :=
      ⟨MAX_RETRIES - k - 1, by omega⟩
    rw [openalex_totals_and_5y, if_neg hnd, heq, hm4, openalex_loop,
      Nat.zero_add, hmk]
    dsimp only
    rw [if_neg hs, if_neg (by simp [hret])]

/-- Closed instance of C2: a 503, then a network exception, then a 200 with
count 7; the resolver returns `(7, 0)` after sleeping `2^2 - 1 = 1 + 2`
units. -/
theorem claim_C2_witness :
    let menv : Nat → Except Unit MainResp := fun i =>
      if i = 0 then .ok { status := 503 }
      else if i = 1 then .error ()
      else .ok { status := 200, cited_by_count := some (.num 7) }
    (openalex_totals_and_5y (some "10.1/x") menv (fun _ => .error ())
        2020 "2021-01-01").1 = .ok (7, 0) ∧
      (openalex_totals_and_5y (some "10.1/x") menv (fun _ => .error ())
        2020 "2021-01-01").2.1 = 2 ^ 2 - 1 ∧
      (Finset.range 2).sum (fun j => (2 : ℚ) ^ j) ≤
        (openalex_totals_and_5y (some "10.1/x") menv (fun _ => .error ())
          2020 "2021-01-01").2.1 := by
  intro menv
  refine claim_C2.1 menv (fun _ => .error ()) 2020 "2021-01-01" (some "10.1/x")
    2 { status := 200, cited_by_count := some (.num 7) } (7, 0) 0
    (by simp) (by simp) (by norm_num [MAX_RETRIES]) ?_ rfl rfl rfl
  intro j hj
  interval_cases j
  · exact Or.inr (Or.inl ⟨{ status := 503 }, rfl, by decide, by decide⟩)
  · exact Or.inl rfl

/-- The index page of the C6 scenario: two marker anchors for 2021 and 2020
(listed out of order) and one unrelated link. -/
def demoAnchors : List Anchor :=
  [{ text := "[contents]", href := some "conf/x/2021.html" },
   { text := "[contents]", href := some "conf/x/2020.html" },
   { text := "more", href := some "about.html" }]

/-- C6: with the source configuration (no year bounds), the venue index
reader returns exactly the pairs `(href, year)` of the anchors whose
visible text is exactly the marker `[contents]` (and whose link target is
present, which the parenthetical year extraction presupposes), with the
year being the first four-digit run of the target; the result is sorted
ascending by year with an unknown year comparing as the lowest key `0`;
and on the scenario page with marker links for 2021 and 2020 plus one
unrelated link it returns exactly the two marker entries in ascending
order. -/
lemma yearFilteredOut_none_none (z : Option Int) :
    yearFilteredOut none none z = false := rfl

theorem claim_C6 (anchors : List Anchor) :
    (∀ (u : String) (y : Option Int),
      (u, y) ∈ extract_proceedings_links_and_years none none anchors ↔
        ∃ a ∈ anchors, a.text = "[contents]" ∧ a.href = some u ∧ u ≠ "" ∧
          y = searchYear u) ∧
    (extract_proceedings_links_and_years none none anchors).Sorted linkLE ∧
    extract_proceedings_links_and_years none none demoAnchors =
      [("conf/x/2020.html", some 2020), ("conf/x/2021.html", some 2021)] := by
  refine ⟨?_, List.sorted_insertionSort linkLE _, by decide⟩
  intro u y
  show (u, y) ∈ (anchors.filterMap _).insertionSort linkLE ↔ _
  rw [List.mem_insertionSort, List.mem_filterMap]
  constructor
  · rintro ⟨a, ha, hfa⟩
    refine ⟨a, ha, ?_⟩
    by_cases ht : a.text = "[contents]"
    · rw [if_pos ht] at hfa
      cases hh : a.href with
      | none => rw [hh] at hfa; simp at hfa
      | some href =>
        rw [hh] at hfa
        dsimp only at hfa
        by_cases he : href = ""
        · rw [if_pos he] at hfa; simp at hfa
        · rw [if_neg he] at hfa
          simp only [yearFilteredOut_none_none, Bool.false_eq_true,
            if_false, Option.some.injEq, Prod.mk.injEq] at hfa
          obtain ⟨hu, hy⟩ := hfa
          subst hu
          exact ⟨ht, rfl, he, hy.symm⟩
    · rw [if_neg ht] at hfa
      simp at hfa
  · rintro ⟨a, ha, ht, hh, he, hy⟩
    refine ⟨a, ha, ?_⟩
    rw [if_pos ht, hh]
    dsimp only
    rw [if_neg he]
    simp [yearFilteredOut_none_none, hy]

/-- Closed instance of C6: on the scenario page, the 2020 entry is a member
and the result is sorted. -/
theorem claim_C6_witness :
    ("conf/x/2020.html", searchYear "conf/x/2020.html") ∈
        extract_proceedings_links_and_years none none demoAnchors ∧
      (extract_proceedings_links_and_years none none demoAnchors).Sorted
        linkLE :=
  ⟨((claim_C6 demoAnchors).1 _ _).mpr
      ⟨{ text := "[contents]", href := some "conf/x/2020.html" },
        by simp [demoAnchors], rfl, rfl, by decide, rfl⟩,
    (claim_C6 demoAnchors).2.1⟩

lemma digitChar_mod_isDigit (n : Nat) :
    (Nat.digitChar (n % 10)).isDigit = true := by
  have h : n % 10 < 10 := Nat.mod_lt _ (by norm_num)
  have hall : ∀ m, m < 10 → (Nat.digitChar m).isDigit = true := by decide
  exact hall _ h

/-- C7: the report writer emits the fixed header followed by one record per
paper, in `(year ascending, title ascending)` order with unknown year
comparing as `0` and the (always present) title as itself; every record
has the eight configured columns; and every normalized score is serialized
as an optional sign and integer part, a decimal point, and exactly six
digit characters.  Reading the rows back therefore yields the configured
schema with data rows in that order. -/
theorem claim_C7 (papers : List Paper) :
    (papers.insertionSort rowLE).Perm papers ∧
    (papers.insertionSort rowLE).Sorted rowLE ∧
    write_csv papers = csv_header :: (papers.insertionSort rowLE).map rowOf ∧
    (write_csv papers).length = papers.length + 1 ∧
    (∀ p : Paper, (rowOf p).length = 8) ∧
    (∀ p : Paper, (rowOf p).getD 6 "" = formatFixed6 p.normalized_total_citations ∧
      (rowOf p).getD 7 "" = formatFixed6 p.normalized_5y_citations) ∧
    (∀ q : ℚ, (∃ pre, formatFixed6 q = pre ++ "." ++ frac6 q) ∧
      (frac6 q).length = 6 ∧ ∀ c ∈ (frac6 q).data, c.isDigit = true) := by
  refine ⟨List.perm_insertionSort rowLE papers,
    List.sorted_insertionSort rowLE papers, rfl, ?_, fun p => rfl,
    fun p => ⟨rfl, rfl⟩, fun q => ⟨?_, rfl, ?_⟩⟩
  · simp [write_csv, List.length_insertionSort]
  · exact ⟨(if roundHalfEvenQ (q * 1000000) < 0 then "-" else "") ++
      toString ((roundHalfEvenQ (q * 1000000)).natAbs / 1000000), rfl⟩
  · intro c hc
    simp only [frac6, String.mk, List.mem_cons, List.not_mem_nil, or_false] at hc
    rcases hc with h | h | h | h | h | h <;> subst h <;>
      exact digitChar_mod_isDigit _

/-- Closed instance of C7 on the empty paper list plus concrete shape
facts. -/
theorem claim_C7_witness :
    write_csv [] = [csv_header] ∧
      (rowOf { year := some 2022 }).length = 8 ∧ (frac6 0).length = 6 :=
  ⟨((claim_C7 []).2.2.1).trans rfl, (claim_C7 []).2.2.2.2.1 _,
    ((claim_C7 []).2.2.2.2.2.2 0).2.1⟩

/-- The environment of a run whose venue index contains no marker links at
all. -/
def emptyIndexEnv : WebEnv :=
  { anchors := [{ text := "more", href := some "about.html" }],
    entriesAt := fun _ => [],
    mainRespAt := fun _ _ => .error (),
    subRespAt := fun _ _ => .error () }

/-- C8 counterexample: a run whose venue index yields no proceedings links
terminates without an unhandled exception, yet no CSV file is written
(`some rows` never holds, not even a bare header): `main` returns at the
`if not proc_links` check, before the output file is opened. -/
theorem claim_C8_counterexample :
    main_run log1p0 emptyIndexEnv 2025 = .ok none ∧
      ∀ rows : List (List String),
        main_run log1p0 emptyIndexEnv 2025 ≠ .ok (some rows) := by
  refine ⟨rfl, fun rows h => ?_⟩
  rw [show main_run log1p0 emptyIndexEnv 2025 = .ok none from rfl] at h
  simp at h

/-- C8 (amended): a run that terminates without an unhandled exception
writes the CSV file, with the header as its first row, exactly when the
venue index yields at least one proceedings link; when the index yields no
links, the run returns early and no file is written. -/
theorem claim_C8 (log1p : Int → ℚ) (env : WebEnv) (cy : Int)
    (out : Option (List (List String)))
    (h : main_run log1p env cy = .ok out) :
    (extract_proceedings_links_and_years none none env.anchors = [] →
      out = none) ∧
    (extract_proceedings_links_and_years none none env.anchors ≠ [] →
      ∃ rows, out = some (csv_header :: rows)) := by
  rw [main_run] at h
  constructor
  · intro he
    rw [he] at h
    simp at h
    exact h.symm
  · intro hne
    rw [if_neg (by simp [hne])] at h
    dsimp only at h
    cases hres : resolveStage env (FIVE_YEAR_CUTOFF cy) (CUTOFF_DATE cy)
        ((extract_proceedings_links_and_years none none env.anchors).flatMap
          fun t => extract_papers_from_proceedings t.1 t.2 (env.entriesAt t.1))
      with
    | error e => rw [hres] at h; simp at h
    | ok papers2 =>
      rw [hres] at h
      simp only [Except.ok.injEq] at h
      exact ⟨((normalize_papers log1p papers2).insertionSort rowLE).map rowOf,
        h.symm⟩

/-- The environment of a run with one proceedings link and an empty
proceedings page. -/
def oneLinkEnv : WebEnv :=
  { anchors := [{ text := "[contents]", href := some "conf/x/x2020.html" }],
    entriesAt := fun _ => [],
    mainRespAt := fun _ _ => .error (),
    subRespAt := fun _ _ => .error () }

/-- Closed instance of C8 (amended): with one proceedings link the run
writes a CSV whose first row is the header. -/
theorem claim_C8_witness :
    ∃ rows, main_run log1p0 oneLinkEnv 2025 = .ok (some (csv_header :: rows)) := by
  obtain ⟨rows, hout⟩ :=
    (claim_C8 log1p0 oneLinkEnv 2025 (some [csv_header]) rfl).2 (by decide)
  exact ⟨rows, by
    rw [show main_run log1p0 oneLinkEnv 2025 = .ok (some [csv_header]) from rfl,
      hout]⟩
